import Mathlib

/- Verification of the speech_analyzer multi-analyzer scoring pipeline
   (src/backend/app/services). The Python services are shallowly embedded:
   transcripts are lists of characters, Python floats are rationals,
   raised exceptions are an explicit error sum type, and Python dicts
   that are built in a deterministic insertion order are association lists
   in that order. -/

namespace SpeechAnalyzer

/-- ASCII lowercasing, as Python str.lower acts on the ASCII transcripts
    handled here. -/
def toLowerChar (c : Char) : Char :=
  if 'A' ≤ c ∧ c ≤ 'Z' then Char.ofNat (c.toNat + 32) else c

/-- The `transcript.lower()` normalization step. -/
def lowerStr (s : List Char) : List Char := s.map toLowerChar

/-- Characters removed by Python str.strip() (ASCII whitespace). -/
def isPySpace (c : Char) : Bool :=
  c == ' ' || c == '\t' || c == '\n' || c == '\r'
    || c == Char.ofNat 11 || c == Char.ofNat 12

/-- `not transcript or not transcript.strip()`: the transcript is empty or
    whitespace-only. -/
def isBlank (s : List Char) : Bool := s.all isPySpace

/-- Word characters for the regex word boundary \b: [A-Za-z0-9_]. -/
def isWordChar (c : Char) : Bool :=
  ('a' ≤ c && c ≤ 'z') || ('A' ≤ c && c ≤ 'Z')
    || ('0' ≤ c && c ≤ '9') || c == '_'

/-- One step of Python str.count: the skip counter consumes the characters
    still covered by the previous match, so matches never overlap. -/
def countOccAux (p : List Char) : List Char → Nat → Nat
  | [], _ => 0
  | _ :: rest, Nat.succ k => countOccAux p rest k
  | c :: rest, 0 =>
    if List.isPrefixOf p (c :: rest) then countOccAux p rest (p.length - 1) + 1
    else countOccAux p rest 0

/-- Python `transcript.count(p)` for a nonempty pattern p: non-overlapping
    occurrences of p as a substring, scanning left to right. -/
def countOcc (p s : List Char) : Nat := countOccAux p s 0

/-- PowerDynamicsAnalyzer.FILLER_WORDS (phrase → weight), in source
    insertion order. -/
def FILLER_WORDS : List (List Char × Nat) :=
  [("um".data, 1), ("uh".data, 1), ("like".data, 1), ("you know".data, 2),
   ("kind of".data, 1), ("sort of".data, 1), ("basically".data, 1),
   ("literally".data, 1), ("actually".data, 1), ("really".data, 1)]

/-- PowerDynamicsAnalyzer.HEDGING_PHRASES (phrase → weight), in source
    insertion order. -/
def HEDGING_PHRASES : List (List Char × Nat) :=
  [("i think".data, 2), ("maybe".data, 1), ("possibly".data, 1),
   ("probably".data, 1), ("i feel".data, 2), ("in my opinion".data, 2),
   ("it seems".data, 2), ("kind of".data, 1), ("sort of".data, 1),
   ("i guess".data, 2)]

/-- The comparison behind `sorted(items, key=lambda x: len(x[0]),
    reverse=True)`: longer phrases first. -/
def byLenDesc (a b : List Char × Nat) : Prop := b.1.length ≤ a.1.length

instance : DecidableRel byLenDesc := fun a b => Nat.decLe b.1.length a.1.length

/-- Python `sorted(..., key=len, reverse=True)` is a stable sort; insertion
    sort with `byLenDesc` places a phrase before every phrase of smaller or
    equal length met later, which is exactly that stable descending order. -/
def sortByLenDesc (l : List (List Char × Nat)) : List (List Char × Nat) :=
  List.insertionSort byLenDesc l

/-- Result of one detection pass: the running total and the phrase → count
    mapping in its insertion order. -/
structure DetectResult where
  count : Nat
  words : List (List Char × Nat)
  deriving Repr, DecidableEq

/-- PowerDynamicsAnalyzer.detect_filler_words: every dictionary phrase is
    counted on the (already lowercased) transcript with str.count, longest
    phrases checked first; phrases with a positive count are recorded and
    their counts summed. -/
def detect_filler_words (transcript : List Char) : DetectResult :=
  let pairs := (sortByLenDesc FILLER_WORDS).filterMap
    (fun pw =>
      let c := countOcc pw.1 transcript
      if c > 0 then some (pw.1, c) else none)
  { count := (pairs.map (fun x => x.2)).sum, words := pairs }

/-- PowerDynamicsAnalyzer.detect_hedging_language: same scan over the
    hedging dictionary. -/
def detect_hedging_language (transcript : List Char) : DetectResult :=
  let pairs := (sortByLenDesc HEDGING_PHRASES).filterMap
    (fun pw =>
      let c := countOcc pw.1 transcript
      if c > 0 then some (pw.1, c) else none)
  { count := (pairs.map (fun x => x.2)).sum, words := pairs }

/-- PowerDynamicsAnalyzer.calculate_score: start at 100, tiered deduction for
    fillers per minute, tiered deduction for hedging per minute, 2 points per
    upspeak instance, clamp to [0, 100]. -/
def calculate_score (filler_count hedging_count upspeak_count : Nat)
    (duration_minutes : ℚ) : ℚ :=
  let score : ℚ := 100
  let fillers_per_minute : ℚ := (filler_count : ℚ) / duration_minutes
  let score :=
    if fillers_per_minute > 10 then score - 30
    else if fillers_per_minute > 5 then score - 20
    else if fillers_per_minute > 2 then score - 10
    else if fillers_per_minute > 0 then score - 5
    else score
  let hedging_per_minute : ℚ := (hedging_count : ℚ) / duration_minutes
  let score :=
    if hedging_per_minute > 5 then score - 25
    else if hedging_per_minute > 3 then score - 15
    else if hedging_per_minute > 1 then score - 8
    else if hedging_per_minute > 0 then score - 3
    else score
  let score := score - (upspeak_count : ℚ) * 2
  max 0 (min 100 score)

/-- Round half to even at integer precision, which is how Python round()
    behaves on the exactly representable values that appear here. -/
def roundHalfEven (q : ℚ) : ℤ :=
  if q - ⌊q⌋ < 1/2 then ⌊q⌋
  else if q - ⌊q⌋ > 1/2 then ⌊q⌋ + 1
  else if ⌊q⌋ % 2 = 0 then ⌊q⌋ else ⌊q⌋ + 1

/-- Python round(x, 1). -/
def round1 (q : ℚ) : ℚ := (roundHalfEven (10 * q) : ℚ) / 10

/-- Does the pattern `\b p \b` match with the head of rem as first character:
    p is a prefix of rem, the preceding character (if any) is not a word
    character, and the character right after the match (if any) is not
    either. Patterns here start and end with word characters, for which the
    regex word boundary reduces to exactly this test. -/
def boundaryHere (p rem : List Char) (prev : Option Char) : Bool :=
  List.isPrefixOf p rem
    && (match prev with | none => true | some c => !(isWordChar c))
    && (match rem.drop p.length with | [] => true | c :: _ => !(isWordChar c))

/-- The re.finditer scan: i is the index of the head of rem in the full
    transcript; after a match the p.length - 1 following positions lie inside
    the match and are skipped, so matches are non-overlapping. -/
def findPosAux (p : List Char) : List Char → Nat → Option Char → Nat → List Nat
  | [], _, _, _ => []
  | c :: rest, i, _, Nat.succ k => findPosAux p rest (i + 1) (some c) k
  | c :: rest, i, prev, 0 =>
    if boundaryHere p (c :: rest) prev then
      i :: findPosAux p rest (i + 1) (some c) (p.length - 1)
    else findPosAux p rest (i + 1) (some c) 0

/-- PowerDynamicsAnalyzer._find_word_positions. The source matches with
    re.IGNORECASE on the transcript it is handed; here both pattern and
    transcript are already lowercase, which gives the same positions. -/
def find_word_positions (transcript p : List Char) : List Nat :=
  findPosAux p transcript 0 none 0

/-- PowerDynamicsAnalyzer._calculate_timestamp: linear proportion of the
    character offset, scaled to the duration, rounded to 1 decimal. -/
def calculate_timestamp (char_position : Nat) (transcript : List Char)
    (duration : ℚ) : ℚ :=
  if transcript.length = 0 then 0
  else round1 ((char_position : ℚ) / (transcript.length : ℚ) * duration)

/-- The `type` field of a critical moment. -/
inductive MomentKind where
  | excessive_fillers
  | hedging
  | generic
  deriving Repr, DecidableEq

/-- A critical moment. The source carries the offending phrase and its count
    inside formatted context/suggestion strings; here they are kept as data
    fields. -/
structure CriticalMoment where
  timestamp : ℚ
  kind : MomentKind
  severity : Nat
  phrase : List Char
  occurrences : Nat
  deriving Repr, DecidableEq

/-- Python `max(items, key=lambda x: x[1])`: the first pair carrying the
    maximal count, in iteration order. -/
def maxByCount : List (List Char × Nat) → Option (List Char × Nat)
  | [] => none
  | x :: xs => some (xs.foldl (fun acc y => if y.2 > acc.2 then y else acc) x)

/-- Ascending timestamps, the final per-analyzer ordering of
    _identify_critical_moments (list.sort is stable). -/
def byTsAsc (a b : CriticalMoment) : Prop := a.timestamp ≤ b.timestamp

instance : DecidableRel byTsAsc :=
  fun a b => inferInstanceAs (Decidable (a.timestamp ≤ b.timestamp))

/-- Build the moment emitted for a most-frequent phrase: the timestamp comes
    from the first word-boundary occurrence, and stays 0.0 when the regex
    finds none. -/
def momentFor (kind : MomentKind) (sev : Nat) (phrase : List Char) (occ : Nat)
    (transcript : List Char) (duration : ℚ) : CriticalMoment :=
  let ts :=
    match find_word_positions transcript phrase with
    | [] => 0
    | pos :: _ => calculate_timestamp pos transcript duration
  { timestamp := ts, kind := kind, severity := sev, phrase := phrase,
    occurrences := occ }

/-- PowerDynamicsAnalyzer._identify_critical_moments: one moment for the most
    frequent filler phrase when its count exceeds 3 (severity min(10, count)),
    one for the most frequent hedging phrase when its count exceeds 2
    (severity min(10, count + 2)), sorted by timestamp ascending. -/
def identify_critical_moments (transcript : List Char)
    (filler_words hedging_phrases : List (List Char × Nat))
    (duration : ℚ) : List CriticalMoment :=
  let fillerM : List CriticalMoment :=
    match maxByCount filler_words with
    | none => []
    | some mc =>
      if mc.2 > 3 then
        [momentFor .excessive_fillers (min 10 mc.2) mc.1 mc.2 transcript duration]
      else []
  let hedgeM : List CriticalMoment :=
    match maxByCount hedging_phrases with
    | none => []
    | some mc =>
      if mc.2 > 2 then
        [momentFor .hedging (min 10 (mc.2 + 2)) mc.1 mc.2 transcript duration]
      else []
  List.insertionSort byTsAsc (fillerM ++ hedgeM)

/-- The exceptions the pipeline can raise: the explicit
    `ValueError("Duration must be positive")` of PowerDynamicsAnalyzer, and
    the TypeError of a call that omits a required positional argument. -/
inductive PyErr where
  | valueError
  | typeError
  deriving Repr, DecidableEq

/-- The `filler_words` part of PowerDynamicsAnalyzer's result. -/
structure FillerInfo where
  count : Nat
  words : List (List Char × Nat)
  per_minute : ℚ
  deriving Repr, DecidableEq

/-- The `hedging` part of PowerDynamicsAnalyzer's result. -/
structure HedgingInfo where
  count : Nat
  phrases : List (List Char × Nat)
  deriving Repr, DecidableEq

/-- PowerDynamicsAnalyzer.analyze's result dictionary. -/
structure PowerResult where
  score : ℚ
  filler_words : FillerInfo
  hedging : HedgingInfo
  upspeak_indicators : Nat
  critical_moments : List CriticalMoment
  deriving Repr, DecidableEq

/-- PowerDynamicsAnalyzer.analyze. An empty or whitespace-only transcript is
    checked first and yields the perfect-score result; then a non-positive
    duration raises ValueError; otherwise the transcript is lowercased, both
    dictionaries are scanned, the score is computed with
    duration_minutes = max(duration / 60, 0.1), and the critical moments are
    identified. The source hands the original-case transcript to
    _identify_critical_moments but matches it with re.IGNORECASE, which for
    the ASCII transcripts modelled here is the same as scanning the
    lowercased transcript; audio data is accepted and unused (upspeak is
    fixed at 0 without prosody analysis). -/
def power_analyze (transcript : List Char) (duration : ℚ)
    (audioData : Option (List Nat)) : Except PyErr PowerResult :=
  if isBlank transcript then
    .ok { score := 100, filler_words := ⟨0, [], 0⟩, hedging := ⟨0, []⟩,
          upspeak_indicators := 0, critical_moments := [] }
  else if duration ≤ 0 then
    .error .valueError
  else
    let _ := audioData
    let normalized := lowerStr transcript
    let fillerR := detect_filler_words normalized
    let hedgingR := detect_hedging_language normalized
    let duration_minutes : ℚ := max (duration / 60) (1/10)
    let filler_per_minute : ℚ := (fillerR.count : ℚ) / duration_minutes
    let upspeak_count : Nat := 0
    let score := calculate_score fillerR.count hedgingR.count upspeak_count
      duration_minutes
    let critical_moments := identify_critical_moments normalized
      fillerR.words hedgingR.words duration
    .ok { score := score,
          filler_words := ⟨fillerR.count, fillerR.words, round1 filler_per_minute⟩,
          hedging := ⟨hedgingR.count, hedgingR.words⟩,
          upspeak_indicators := upspeak_count,
          critical_moments := critical_moments }

/-- VocalCommandAnalyzer.analyze's result dictionary. -/
structure VocalResult where
  score : ℚ
  words_per_minute : ℚ
  average_pause_duration : ℚ
  pace_variance : ℚ
  critical_moments : List CriticalMoment
  deriving Repr, DecidableEq

/-- VocalCommandAnalyzer.analyze: the prototype returns fixed constants for
    every input. Its audio_data parameter is required positionally and has no
    default, which matters to the orchestrator below. -/
def vocal_analyze (transcript : List Char) (duration : ℚ)
    (audioData : Option (List Nat)) : VocalResult :=
  let _ := (transcript, duration, audioData)
  { score := 80, words_per_minute := 145, average_pause_duration := 4/5,
    pace_variance := 25/2, critical_moments := [] }

/-- VocalCommandAnalyzer.calculate_wpm: stub, returns 145.0 for every
    input. -/
def calculate_wpm (transcript : List Char) (duration : ℚ) : ℚ :=
  let _ := (transcript, duration)
  145

/-- Python len(transcript.split()): the number of maximal whitespace-free
    runs. The flag records whether the scan is inside such a run. -/
def pyWordCountAux : List Char → Bool → Nat
  | [], _ => 0
  | c :: rest, false =>
    if isPySpace c then pyWordCountAux rest false
    else pyWordCountAux rest true + 1
  | c :: rest, true =>
    if isPySpace c then pyWordCountAux rest false
    else pyWordCountAux rest true

def pyWordCount (s : List Char) : Nat := pyWordCountAux s false

/-- Modelled from the spec: `words_per_minute = word_count(transcript) /
    (duration_seconds/60)`, the formula VocalCommandAnalyzer.calculate_wpm
    documents in its TODO notes but never implements. -/
def spec_words_per_minute (transcript : List Char) (duration : ℚ) : ℚ :=
  (pyWordCount transcript : ℚ) / (duration / 60)

/-- LinguisticAuthorityAnalyzer.analyze's result dictionary
    (passive_voice_frac is the passive_voice_ratio field of the source). -/
structure LinguisticResult where
  score : ℚ
  passive_voice_frac : ℚ
  average_sentence_length : ℚ
  word_diversity_score : ℚ
  jargon_overuse_score : ℚ
  critical_moments : List CriticalMoment
  deriving Repr, DecidableEq

/-- LinguisticAuthorityAnalyzer.analyze: the prototype returns fixed
    constants for every input. -/
def linguistic_analyze (transcript : List Char) (duration : ℚ) :
    LinguisticResult :=
  let _ := (transcript, duration)
  { score := 70, passive_voice_frac := 3/20, average_sentence_length := 25/2,
    word_diversity_score := 68, jargon_overuse_score := 15,
    critical_moments := [] }

/-- The persuasion_keywords breakdown. -/
structure PersuasionKeywords where
  call_to_action : Nat
  power_words : Nat
  evidence_indicators : Nat
  deriving Repr, DecidableEq

/-- PersuasionInfluenceAnalyzer.analyze's result dictionary. -/
structure PersuasionResult where
  score : ℚ
  story_coherence_score : ℚ
  persuasion_keywords : PersuasionKeywords
  critical_moments : List CriticalMoment
  deriving Repr, DecidableEq

/-- PersuasionInfluenceAnalyzer.analyze: the prototype returns fixed
    constants for every input. -/
def persuasion_analyze (transcript : List Char) (duration : ℚ) :
    PersuasionResult :=
  let _ := (transcript, duration)
  { score := 75, story_coherence_score := 75,
    persuasion_keywords := ⟨3, 2, 1⟩, critical_moments := [] }

/-- AnalysisEngine._calculate_overall_score: the fixed weights 0.30, 0.25,
    0.20, 0.25, rounded to 1 decimal place by Python round. -/
def calculate_overall_score (power_score linguistic_score vocal_score
    persuasion_score : ℚ) : ℚ :=
  round1 (power_score * (30/100) + linguistic_score * (25/100)
    + vocal_score * (20/100) + persuasion_score * (25/100))

/-- Descending severity, the ordering of
    AnalysisEngine._combine_critical_moments. -/
def bySevDesc (a b : CriticalMoment) : Prop := b.severity ≤ a.severity

instance : DecidableRel bySevDesc := fun a b => Nat.decLe b.severity a.severity

/-- AnalysisEngine._combine_critical_moments: concatenate the four lists in
    power, linguistic, vocal, persuasion order, sort by severity descending
    (Python list.sort is stable, so ties keep emission order; insertion sort
    with `bySevDesc` realizes that stable order), and keep the first 10. -/
def combine_critical_moments (power_m linguistic_m vocal_m persuasion_m :
    List CriticalMoment) : List CriticalMoment :=
  (List.insertionSort bySevDesc
    (power_m ++ linguistic_m ++ vocal_m ++ persuasion_m)).take 10

/-- The composite result AnalysisEngine.analyze_audio is documented to
    return (scores, flattened metrics and the aggregated moments). -/
structure EngineResult where
  overall_score : ℚ
  power_dynamics_score : ℚ
  linguistic_authority_score : ℚ
  vocal_command_score : ℚ
  persuasion_influence_score : ℚ
  critical_moments : List CriticalMoment
  deriving Repr, DecidableEq

/-- AnalysisEngine.analyze_audio with the transcript already supplied (the
    transcription collaborator is outside the core). Step 3 of the source
    first runs PowerDynamicsAnalyzer.analyze (whose ValueError for a
    non-positive duration propagates, the engine catches nothing), then
    LinguisticAuthorityAnalyzer.analyze, and then calls
    `self.vocal_command_analyzer.analyze(transcript, duration)`, omitting the
    required positional audio_data parameter of
    VocalCommandAnalyzer.analyze — so every run that gets this far raises
    TypeError and no composite result is ever assembled. -/
def analyze_audio (transcript : List Char) (duration : ℚ)
    (audioData : Option (List Nat)) : Except PyErr EngineResult :=
  match power_analyze transcript duration audioData with
  | .error e => .error e
  | .ok _ =>
    let _ := linguistic_analyze transcript duration
    .error .typeError

/-- The worked transcript of spec §8: "um, you know, um, you know, um, you
    know, um". -/
def exTranscript : List Char :=
  "um, you know, um, you know, um, you know, um".data

/-- A 100-character transcript whose first word-boundary occurrence of "um"
    starts at character offset 50: 49 z's, a space, "um um um um ", then 38
    z's. -/
def c9Transcript : List Char :=
  List.replicate 49 'z' ++ " um um um um ".data ++ List.replicate 38 'z'

/-- The result PowerDynamicsAnalyzer.analyze produces on `c9Transcript` with
    duration 40: 4 fillers in 2/3 minutes is 6 per minute (tier > 5, -20),
    and the single excessive-fillers moment is stamped (50/100)·40 = 20.0. -/
def c9Result : PowerResult :=
  { score := 80, filler_words := ⟨4, [("um".data, 4)], 6⟩, hedging := ⟨0, []⟩,
    upspeak_indicators := 0,
    critical_moments := [⟨20, .excessive_fillers, 4, "um".data, 4⟩] }

/-- The moment carried by `c9Result`. -/
def c9Moment : CriticalMoment := ⟨20, .excessive_fillers, 4, "um".data, 4⟩

/-- Spec §8 example moments: a severity-7 excessive-fillers moment and a
    severity-9 hedging moment from PowerDynamics. -/
def exMoment7 : CriticalMoment := ⟨12/10, .excessive_fillers, 7, "um".data, 7⟩

def exMoment9 : CriticalMoment := ⟨34/10, .hedging, 9, "i think".data, 7⟩

/-- Spec §8 example moments: a severity-5 linguistic moment. -/
def exMoment5 : CriticalMoment := ⟨2, .generic, 5, [], 0⟩

/-! Helper lemmas about Python rounding. -/

theorem roundHalfEven_intCast (n : ℤ) : roundHalfEven (n : ℚ) = n := by
  simp [roundHalfEven, Int.floor_intCast]

theorem round1_of_mul_eq_int {q : ℚ} {n : ℤ} (h : 10 * q = (n : ℚ)) :
    round1 q = (n : ℚ) / 10 := by
  rw [round1, h, roundHalfEven_intCast]

theorem roundHalfEven_ge_floor (q : ℚ) : ⌊q⌋ ≤ roundHalfEven q := by
  unfold roundHalfEven
  split_ifs <;> omega

theorem le_roundHalfEven {n : ℤ} {q : ℚ} (h : (n : ℚ) ≤ q) :
    n ≤ roundHalfEven q :=
  le_trans (Int.le_floor.mpr h) (roundHalfEven_ge_floor q)

theorem roundHalfEven_le_of_le {q : ℚ} {n : ℤ} (h : q ≤ (n : ℚ)) :
    roundHalfEven q ≤ n := by
  have hfq : (⌊q⌋ : ℚ) ≤ q := Int.floor_le q
  have hfn : ⌊q⌋ ≤ n := by exact_mod_cast hfq.trans h
  unfold roundHalfEven
  split_ifs with h1 h2 h3
  · exact hfn
  · by_contra hc
    push_neg at hc
    have hn : (n : ℚ) ≤ (⌊q⌋ : ℚ) := by exact_mod_cast Int.lt_add_one_iff.mp hc
    linarith
  · exact hfn
  · by_contra hc
    push_neg at hc
    have hn : (n : ℚ) ≤ (⌊q⌋ : ℚ) := by exact_mod_cast Int.lt_add_one_iff.mp hc
    have heq : q - ⌊q⌋ = 1/2 := le_antisymm (not_lt.mp h2) (not_lt.mp h1)
    linarith

theorem round1_nonneg {q : ℚ} (h : 0 ≤ q) : 0 ≤ round1 q := by
  have h0 : ((0 : ℤ) : ℚ) ≤ 10 * q := by push_cast; linarith
  have h1 : (0 : ℤ) ≤ roundHalfEven (10 * q) := le_roundHalfEven h0
  rw [round1]
  exact div_nonneg (by exact_mod_cast h1) (by norm_num)

theorem round1_le_hundred {q : ℚ} (h : q ≤ 100) : round1 q ≤ 100 := by
  have h0 : 10 * q ≤ ((1000 : ℤ) : ℚ) := by push_cast; linarith
  have h1 : roundHalfEven (10 * q) ≤ 1000 := roundHalfEven_le_of_le h0
  rw [round1, div_le_iff₀ (by norm_num : (0:ℚ) < 10)]
  calc (roundHalfEven (10 * q) : ℚ) ≤ 1000 := by exact_mod_cast h1
    _ = 100 * 10 := by norm_num

theorem round1_tie_even {q : ℚ} {n : ℤ} (hf : ⌊10 * q⌋ = n)
    (ht : 10 * q - (n : ℚ) = 1/2) (he : n % 2 = 0) :
    round1 q = (n : ℚ) / 10 := by
  rw [round1]
  unfold roundHalfEven
  rw [hf, ht]
  norm_num [he]

/-! Helper lemmas about the PowerDynamics score and result. -/

theorem calculate_score_nonneg (f h u : Nat) (dm : ℚ) :
    0 ≤ calculate_score f h u dm :=
  le_max_left 0 _

theorem calculate_score_le_hundred (f h u : Nat) (dm : ℚ) :
    calculate_score f h u dm ≤ 100 :=
  max_le (by norm_num) (min_le_left 100 _)

theorem power_analyze_eq_error_iff (t : List Char) (d : ℚ)
    (a : Option (List Nat)) (e : PyErr) :
    power_analyze t d a = .error e ↔
      isBlank t = false ∧ d ≤ 0 ∧ e = .valueError := by
  by_cases hb : isBlank t = true
  · simp [power_analyze, hb]
  · have hb2 : isBlank t = false := by simpa using hb
    by_cases hd0 : d ≤ 0
    · simp [power_analyze, hb2, hd0, eq_comm]
    · simp [power_analyze, hb2, hd0]

/-- Generic evaluation scheme for power_analyze on a non-blank transcript
    with a positive duration: each intermediate quantity is supplied by its
    own evaluation fact. -/
theorem power_analyze_eval {t : List Char} {d : ℚ} (a : Option (List Nat))
    {fr hr : DetectResult} {dm fpm score : ℚ} {cm : List CriticalMoment}
    (hb : isBlank t = false) (hd : ¬ d ≤ 0)
    (hf : detect_filler_words (lowerStr t) = fr)
    (hh : detect_hedging_language (lowerStr t) = hr)
    (hdm : max (d / 60) (1/10) = dm)
    (hsc : calculate_score fr.count hr.count 0 dm = score)
    (hpm : round1 ((fr.count : ℚ) / dm) = fpm)
    (hcm : identify_critical_moments (lowerStr t) fr.words hr.words d = cm) :
    power_analyze t d a =
      .ok ⟨score, ⟨fr.count, fr.words, fpm⟩, ⟨hr.count, hr.words⟩, 0, cm⟩ := by
  simp only [power_analyze, hb, hd, Bool.false_eq_true, if_false, hf, hh,
    hdm, hsc, hpm, hcm]

theorem round1_eq_of_int {q r : ℚ} {n : ℤ} (h : 10 * q = (n : ℚ))
    (h2 : (n : ℚ) / 10 = r) : round1 q = r := by
  rw [round1_of_mul_eq_int h, h2]

theorem momentFor_eval {k : MomentKind} {sev : Nat} {phrase t : List Char}
    {occ : Nat} {d : ℚ} {p : Nat} {ps : List Nat} {ts : ℚ}
    (hp : find_word_positions t phrase = p :: ps)
    (hl : ¬ t.length = 0)
    (hts : round1 ((p : ℚ) / (t.length : ℚ) * d) = ts) :
    momentFor k sev phrase occ t d = ⟨ts, k, sev, phrase, occ⟩ := by
  simp only [momentFor, hp]
  rw [calculate_timestamp, if_neg hl, hts]

theorem identify_eval_single_filler (mc : List Char × Nat) (sev : Nat)
    {t : List Char} {fw : List (List Char × Nat)} {d : ℚ}
    {m : CriticalMoment}
    (hmax : maxByCount fw = some mc) (hgt : mc.2 > 3)
    (hs : min 10 mc.2 = sev)
    (hm : momentFor .excessive_fillers sev mc.1 mc.2 t d = m) :
    identify_critical_moments t fw [] d = [m] := by
  simp only [identify_critical_moments, hmax, hs, hm, if_pos hgt]
  simp [maxByCount, List.insertionSort]

/-! Concrete evaluations used by the worked examples. -/

theorem detF_ex : detect_filler_words (lowerStr exTranscript) =
    ⟨7, [("you know".data, 3), ("um".data, 4)]⟩ := by decide

theorem detH_ex : detect_hedging_language (lowerStr exTranscript) =
    ⟨0, []⟩ := by decide

theorem posUm_ex : find_word_positions (lowerStr exTranscript) "um".data =
    [0, 14, 28, 42] := by decide

theorem calc_score_ex : calculate_score 7 0 0 1 = 80 := by
  norm_num [calculate_score, min_def, max_def]

theorem cm_ex : identify_critical_moments (lowerStr exTranscript)
    [("you know".data, 3), ("um".data, 4)] [] 60 =
    [⟨0, .excessive_fillers, 4, "um".data, 4⟩] := by
  refine identify_eval_single_filler ("um".data, 4) 4 (by decide) (by decide)
    (by decide) (momentFor_eval posUm_ex (by decide) ?_)
  rw [show ((0 : ℕ) : ℚ) / (((lowerStr exTranscript).length : ℕ) : ℚ) * 60 = 0
    by norm_num]
  exact round1_eq_of_int (n := 0) (by norm_num) (by norm_num)

theorem power_eval_ex : power_analyze exTranscript 60 none =
    .ok ⟨80, ⟨7, [("you know".data, 3), ("um".data, 4)], 7⟩, ⟨0, []⟩, 0,
      [⟨0, .excessive_fillers, 4, "um".data, 4⟩]⟩ :=
  power_analyze_eval none (by decide) (by norm_num) detF_ex detH_ex
    (by rw [max_eq_left (by norm_num : (1:ℚ)/10 ≤ 60/60)]; norm_num)
    calc_score_ex
    (round1_eq_of_int (n := 70) (by norm_num) (by norm_num))
    cm_ex

theorem detF_c9 : detect_filler_words (lowerStr c9Transcript) =
    ⟨4, [("um".data, 4)]⟩ := by decide

theorem detH_c9 : detect_hedging_language (lowerStr c9Transcript) =
    ⟨0, []⟩ := by decide

theorem posUm_c9 : find_word_positions (lowerStr c9Transcript) "um".data =
    [50, 53, 56, 59] := by decide

theorem calc_score_c9 : calculate_score 4 0 0 (2/3) = 80 := by
  norm_num [calculate_score, min_def, max_def]

theorem cm_c9 : identify_critical_moments (lowerStr c9Transcript)
    [("um".data, 4)] [] 40 = [c9Moment] := by
  refine identify_eval_single_filler ("um".data, 4) 4 (by decide) (by decide)
    (by decide) (momentFor_eval posUm_c9 (by decide) ?_)
  rw [show ((lowerStr c9Transcript).length : ℕ) = 100 by decide]
  exact round1_eq_of_int (n := 200) (by norm_num) (by norm_num)

theorem power_eval_c9 : power_analyze c9Transcript 40 none = .ok c9Result :=
  power_analyze_eval none (by decide) (by norm_num) detF_c9 detH_c9
    (by rw [max_eq_left (by norm_num : (1:ℚ)/10 ≤ 40/60)]; norm_num)
    calc_score_c9
    (round1_eq_of_int (n := 60) (by norm_num) (by norm_num))
    cm_c9

theorem detF_kind : detect_filler_words (lowerStr "kind of".data) =
    ⟨1, [("kind of".data, 1)]⟩ := by decide

theorem detH_kind : detect_hedging_language (lowerStr "kind of".data) =
    ⟨1, [("kind of".data, 1)]⟩ := by decide

theorem calc_score_kind : calculate_score 1 1 0 10 = 92 := by
  norm_num [calculate_score, min_def, max_def]

theorem cm_kind : identify_critical_moments (lowerStr "kind of".data)
    [("kind of".data, 1)] [("kind of".data, 1)] 600 = [] := by decide

theorem power_eval_kind : power_analyze "kind of".data 600 none =
    .ok ⟨92, ⟨1, [("kind of".data, 1)], round1 ((1 : ℚ) / 10)⟩,
      ⟨1, [("kind of".data, 1)]⟩, 0, []⟩ :=
  power_analyze_eval none (by decide) (by norm_num) detF_kind detH_kind
    (by rw [max_eq_left (by norm_num : (1:ℚ)/10 ≤ 600/60)]; norm_num)
    calc_score_kind rfl cm_kind

theorem overall_ex_eval : calculate_overall_score 90 70 80 75 = 792/10 := by
  rw [calculate_overall_score, show ((90:ℚ) * (30/100) + 70 * (25/100)
    + 80 * (20/100) + 75 * (25/100)) = 317/4 by norm_num]
  refine round1_tie_even (n := 792) ?_ ?_ (by norm_num)
  · rw [show (10:ℚ) * (317/4) = 1585/2 by norm_num, Int.floor_eq_iff]
    · norm_num
  · norm_num

/-- Claim C1: on a valid input (non-empty transcript, positive duration) the
    orchestrator is claimed to run all four analyzers and always return the
    composite result. In fact AnalysisEngine.analyze_audio invokes
    VocalCommandAnalyzer.analyze without its required positional audio_data
    argument, so after PowerDynamics succeeds every such call raises
    TypeError and no composite result is ever produced. -/
theorem C1_engine_raises_type_error (t : List Char) (d : ℚ)
    (a : Option (List Nat)) (ht : isBlank t = false) (hd : 0 < d) :
    analyze_audio t d a = .error .typeError := by
  have hnd : ¬ d ≤ 0 := not_le.mpr hd
  simp only [analyze_audio]
  cases hres : power_analyze t d a with
  | error e =>
    exact absurd ((power_analyze_eq_error_iff t d a e).mp hres).2.1 hnd
  | ok r => rfl

/-- Claim C1 witness: the concrete valid input "hello world" with duration
    60 makes the engine raise TypeError. -/
theorem C1_witness :
    isBlank "hello world".data = false ∧ (0:ℚ) < 60
    ∧ analyze_audio "hello world".data 60 none = .error .typeError :=
  ⟨by decide, by norm_num,
    C1_engine_raises_type_error "hello world".data 60 none (by decide)
      (by norm_num)⟩

/-- Claim C2 counterexample: on the worked transcript with duration 60 the
    PowerDynamics score is 80.0 with a total filler count of 7 and a
    filler-per-minute rate of 7 — not the claimed rate 4, tier -10 and score
    90.0. -/
theorem C2_counterexample :
    (power_analyze exTranscript 60 none).map
      (fun r => (r.score, r.filler_words.count, r.filler_words.per_minute))
      = Except.ok (80, 7, 7)
    ∧ ((80 : ℚ) ≠ 90) := by
  refine ⟨?_, by norm_num⟩
  rw [power_eval_ex]
  rfl

/-- Claim C2 (amended): on the worked transcript "um" is counted 4 times and
    "you know" 3 times, but both phrases live in FILLER_WORDS, so the total
    filler count is 7, the rate is 7 per minute, the >5 tier applies (-20),
    hedging stays 0, and the PowerDynamics score is 80.0. -/
theorem C2_example_scoring :
    countOcc "um".data (lowerStr exTranscript) = 4
    ∧ countOcc "you know".data (lowerStr exTranscript) = 3
    ∧ (detect_filler_words (lowerStr exTranscript)).count = 7
    ∧ calculate_score 7 0 0 1 = 80
    ∧ (power_analyze exTranscript 60 none).map
        (fun r => (r.score, r.hedging.count, r.filler_words.per_minute))
        = Except.ok (80, 0, 7) := by
  refine ⟨by decide, by decide, by rw [detF_ex], calc_score_ex, ?_⟩
  rw [power_eval_ex]
  rfl

/-- Claim C3 counterexample: the engine rounds with Python round, which is
    round-half-even, so the weighted sum 79.25 of the rubric scores
    (90, 70, 80, 75) rounds to 79.2, not the claimed 79.3. -/
theorem C3_counterexample :
    calculate_overall_score 90 70 80 75 = 792/10
    ∧ ((792 : ℚ)/10 ≠ 793/10) :=
  ⟨overall_ex_eval, by norm_num⟩

/-- Claim C3 (amended): the overall score is
    0.30 power + 0.25 linguistic + 0.20 vocal + 0.25 persuasion rounded to
    one decimal with ties to even; at (90, 70, 80, 75) the weighted sum is
    79.25 and rounds to 79.2. -/
theorem C3_overall_weighted_formula :
    (∀ p l v q : ℚ, calculate_overall_score p l v q
      = round1 ((30 * p + 25 * l + 20 * v + 25 * q) / 100))
    ∧ calculate_overall_score 90 70 80 75 = 792/10 := by
  refine ⟨fun p l v q => ?_, overall_ex_eval⟩
  rw [calculate_overall_score]
  congr 1
  ring

/-- Claim C4 counterexample: with an empty transcript and duration 0,
    PowerDynamicsAnalyzer.analyze hits the empty-transcript branch first and
    returns the perfect-score result instead of raising ValueError, so the
    claimed "for every transcript" fails. -/
theorem C4_counterexample :
    power_analyze [] 0 none = .ok ⟨100, ⟨0, [], 0⟩, ⟨0, []⟩, 0, []⟩
    ∧ power_analyze [] 0 none ≠ .error .valueError := by
  refine ⟨rfl, fun h => ?_⟩
  have h1 := ((power_analyze_eq_error_iff [] 0 none .valueError).mp h).1
  simp [isBlank] at h1

/-- Claim C4 (amended): for every transcript that is not empty or
    whitespace-only, a non-positive duration makes
    PowerDynamicsAnalyzer.analyze raise ValueError (never defaulted), and the
    ValueError propagates unmasked out of AnalysisEngine.analyze_audio. -/
theorem C4_nonpositive_duration_raises (t : List Char) (d : ℚ)
    (a : Option (List Nat)) (ht : isBlank t = false) (hd : d ≤ 0) :
    power_analyze t d a = .error .valueError
    ∧ analyze_audio t d a = .error .valueError := by
  have h1 : power_analyze t d a = .error .valueError := by
    rw [power_analyze_eq_error_iff]
    exact ⟨ht, hd, rfl⟩
  refine ⟨h1, ?_⟩
  simp only [analyze_audio]
  rw [h1]

/-- Claim C4 witness: the non-blank transcript "hi" with duration 0. -/
theorem C4_witness :
    isBlank "hi".data = false ∧ ((0:ℚ) ≤ 0)
    ∧ power_analyze "hi".data 0 none = .error .valueError
    ∧ analyze_audio "hi".data 0 none = .error .valueError :=
  ⟨by decide, le_refl 0,
    (C4_nonpositive_duration_raises "hi".data 0 none (by decide) (le_refl 0)).1,
    (C4_nonpositive_duration_raises "hi".data 0 none (by decide) (le_refl 0)).2⟩

/-- Claim C5: words_per_minute is claimed to be
    word_count / (duration/60); the prototype VocalCommandAnalyzer instead
    returns the constant 145.0 for every input, e.g. for "hello world" at 60
    seconds where the documented formula gives 2. -/
theorem C5_wpm_is_stub :
    (∀ (t : List Char) (d : ℚ) (a : Option (List Nat)),
      (vocal_analyze t d a).words_per_minute = 145)
    ∧ (∀ (t : List Char) (d : ℚ), calculate_wpm t d = 145)
    ∧ spec_words_per_minute "hello world".data 60 = 2
    ∧ (vocal_analyze "hello world".data 60 none).words_per_minute
        ≠ spec_words_per_minute "hello world".data 60 := by
  have hs : spec_words_per_minute "hello world".data 60 = 2 := by
    rw [spec_words_per_minute, show pyWordCount "hello world".data = 2
      by decide]
    norm_num
  refine ⟨fun t d a => rfl, fun t d => rfl, hs, ?_⟩
  rw [hs]
  norm_num [vocal_analyze]

theorem power_analyze_blank (t : List Char) (d : ℚ) (a : Option (List Nat))
    (h : isBlank t = true) :
    power_analyze t d a = .ok ⟨100, ⟨0, [], 0⟩, ⟨0, []⟩, 0, []⟩ := by
  simp [power_analyze, h]

theorem power_analyze_nonblank (t : List Char) (d : ℚ)
    (a : Option (List Nat)) (hb : isBlank t = false) (hnd : ¬ d ≤ 0) :
    power_analyze t d a = .ok
      ⟨calculate_score (detect_filler_words (lowerStr t)).count
          (detect_hedging_language (lowerStr t)).count 0 (max (d/60) (1/10)),
        ⟨(detect_filler_words (lowerStr t)).count,
          (detect_filler_words (lowerStr t)).words,
          round1 (((detect_filler_words (lowerStr t)).count : ℚ)
            / max (d/60) (1/10))⟩,
        ⟨(detect_hedging_language (lowerStr t)).count,
          (detect_hedging_language (lowerStr t)).words⟩, 0,
        identify_critical_moments (lowerStr t)
          (detect_filler_words (lowerStr t)).words
          (detect_hedging_language (lowerStr t)).words d⟩ :=
  power_analyze_eval a hb hnd rfl rfl rfl rfl rfl rfl

/-- Claim C6: an empty or whitespace-only transcript yields, for any
    duration, the perfect PowerDynamics result: score 100.0, zero filler and
    hedging counts, and no critical moments. -/
theorem C6_blank_transcript_perfect (t : List Char) (d : ℚ)
    (a : Option (List Nat)) (h : isBlank t = true) :
    power_analyze t d a = .ok ⟨100, ⟨0, [], 0⟩, ⟨0, []⟩, 0, []⟩ :=
  power_analyze_blank t d a h

/-- Claim C6 witness: the whitespace transcript "   " with the (even
    negative) duration -5. -/
theorem C6_witness :
    isBlank "   ".data = true
    ∧ power_analyze "   ".data (-5) none
        = .ok ⟨100, ⟨0, [], 0⟩, ⟨0, []⟩, 0, []⟩ :=
  ⟨by decide, C6_blank_transcript_perfect "   ".data (-5) none (by decide)⟩

/-! Stability and sortedness of the severity sort used by the engine. -/

instance : IsTotal CriticalMoment bySevDesc :=
  ⟨fun a b => Nat.le_total b.severity a.severity⟩

instance : IsTrans CriticalMoment bySevDesc :=
  ⟨fun _ _ _ hab hbc => Nat.le_trans hbc hab⟩

theorem filter_orderedInsert_sevEq (s : Nat) (m : CriticalMoment)
    (l : List CriticalMoment) :
    (List.orderedInsert bySevDesc m l).filter (fun x => x.severity == s)
      = if m.severity = s
        then m :: l.filter (fun x => x.severity == s)
        else l.filter (fun x => x.severity == s) := by
  induction l with
  | nil =>
    by_cases h : m.severity = s <;> simp [List.orderedInsert, h]
  | cons b t ih =>
    rw [List.orderedInsert]
    by_cases hr : bySevDesc m b
    · rw [if_pos hr]
      by_cases h : m.severity = s <;> simp [h, List.filter_cons]
    · rw [if_neg hr]
      by_cases h : m.severity = s
      · have hbs : ¬ b.severity = s := by
          unfold bySevDesc at hr
          omega
        simp [List.filter_cons, hbs, h, ih]
      · simp [List.filter_cons, h, ih]

theorem filter_insertionSort_sevEq (s : Nat) (l : List CriticalMoment) :
    (List.insertionSort bySevDesc l).filter (fun x => x.severity == s)
      = l.filter (fun x => x.severity == s) := by
  induction l with
  | nil => rfl
  | cons b t ih =>
    rw [List.insertionSort, filter_orderedInsert_sevEq]
    by_cases h : b.severity = s <;> simp [h, List.filter_cons, ih]

/-- Claim C7: the aggregated critical_moments list is the four analyzers'
    lists concatenated in power, linguistic, vocal, persuasion order, sorted
    by severity descending with ties kept stable (for every severity value
    the subsequence of moments carrying it is exactly that of the
    concatenation, in order), truncated to at most 10; and the spec's
    worked example with severities 7 and 9 from one analyzer plus a
    severity-5 linguistic moment comes out ordered [9, 7, 5]. -/
theorem C7_critical_moment_aggregation
    (pm lm vm qm : List CriticalMoment) :
    combine_critical_moments pm lm vm qm
      = (List.insertionSort bySevDesc (pm ++ lm ++ vm ++ qm)).take 10
    ∧ List.Sorted bySevDesc (List.insertionSort bySevDesc (pm ++ lm ++ vm ++ qm))
    ∧ (∀ s : Nat,
        (List.insertionSort bySevDesc (pm ++ lm ++ vm ++ qm)).filter
            (fun x => x.severity == s)
          = (pm ++ lm ++ vm ++ qm).filter (fun x => x.severity == s))
    ∧ (combine_critical_moments pm lm vm qm).length ≤ 10
    ∧ (combine_critical_moments [exMoment7, exMoment9] [exMoment5] [] []).map
        CriticalMoment.severity = [9, 7, 5] := by
  refine ⟨rfl, List.sorted_insertionSort bySevDesc _,
    fun s => filter_insertionSort_sevEq s _, ?_, ?_⟩
  · exact le_trans (List.length_take_le 10 _) (le_refl 10)
  · rfl

/-- Claim C8: for every valid input (any transcript, positive duration)
    PowerDynamics succeeds and its score lies in [0, 100], the three
    prototype analyzers return scores in [0, 100], and the weighted overall
    score of any four rubric scores in [0, 100] lies in [0, 100]. -/
theorem C8_scores_in_range (t : List Char) (d : ℚ) (a : Option (List Nat))
    (hd : 0 < d) :
    (∃ r, power_analyze t d a = Except.ok r)
    ∧ (∀ r, power_analyze t d a = Except.ok r →
        0 ≤ r.score ∧ r.score ≤ 100)
    ∧ (0 ≤ (linguistic_analyze t d).score
        ∧ (linguistic_analyze t d).score ≤ 100)
    ∧ (0 ≤ (vocal_analyze t d a).score ∧ (vocal_analyze t d a).score ≤ 100)
    ∧ (0 ≤ (persuasion_analyze t d).score
        ∧ (persuasion_analyze t d).score ≤ 100)
    ∧ (∀ p l v q : ℚ, 0 ≤ p → p ≤ 100 → 0 ≤ l → l ≤ 100 → 0 ≤ v →
        v ≤ 100 → 0 ≤ q → q ≤ 100 →
        0 ≤ calculate_overall_score p l v q
          ∧ calculate_overall_score p l v q ≤ 100) := by
  have hnd : ¬ d ≤ 0 := not_le.mpr hd
  refine ⟨?_, ?_, by norm_num [linguistic_analyze],
    by norm_num [vocal_analyze], by norm_num [persuasion_analyze], ?_⟩
  · cases hres : power_analyze t d a with
    | error e =>
      exact absurd ((power_analyze_eq_error_iff t d a e).mp hres).2.1 hnd
    | ok r => exact ⟨r, rfl⟩
  · intro r hr
    by_cases hb : isBlank t = true
    · rw [power_analyze_blank t d a hb, Except.ok.injEq] at hr
      rw [← hr]
      norm_num
    · have hb2 : isBlank t = false := by simpa using hb
      rw [power_analyze_nonblank t d a hb2 hnd, Except.ok.injEq] at hr
      rw [← hr]
      exact ⟨calculate_score_nonneg _ _ _ _, calculate_score_le_hundred _ _ _ _⟩
  · intro p l v q hp0 hp1 hl0 hl1 hv0 hv1 hq0 hq1
    constructor
    · rw [calculate_overall_score]
      apply round1_nonneg
      linarith
    · rw [calculate_overall_score]
      apply round1_le_hundred
      linarith

/-- Claim C8 witness: the transcript "ok" with duration 60, the prototype
    vocal score, and the overall score of (90, 70, 80, 75). -/
theorem C8_witness :
    (0 ≤ (vocal_analyze "ok".data 60 none).score
      ∧ (vocal_analyze "ok".data 60 none).score ≤ 100)
    ∧ (0 ≤ calculate_overall_score 90 70 80 75
      ∧ calculate_overall_score 90 70 80 75 ≤ 100) :=
  ⟨(C8_scores_in_range "ok".data 60 none (by norm_num)).2.2.2.1,
   (C8_scores_in_range "ok".data 60 none (by norm_num)).2.2.2.2.2 90 70 80 75
     (by norm_num) (by norm_num) (by norm_num) (by norm_num) (by norm_num)
     (by norm_num) (by norm_num) (by norm_num)⟩

theorem mem_identify {t : List Char} {fw hw : List (List Char × Nat)}
    {d : ℚ} {m : CriticalMoment}
    (hm : m ∈ identify_critical_moments t fw hw d) :
    ∃ k sev phr occ, m = momentFor k sev phr occ t d := by
  simp only [identify_critical_moments] at hm
  rw [List.mem_insertionSort, List.mem_append] at hm
  rcases hm with hm | hm
  · cases hx : maxByCount fw with
    | none => simp only [hx] at hm; simp at hm
    | some mc =>
      simp only [hx] at hm
      by_cases hgt : mc.2 > 3
      · rw [if_pos hgt] at hm
        simp at hm
        exact ⟨_, _, _, _, hm⟩
      · rw [if_neg hgt] at hm
        simp at hm
  · cases hx : maxByCount hw with
    | none => simp only [hx] at hm; simp at hm
    | some mc =>
      simp only [hx] at hm
      by_cases hgt : mc.2 > 2
      · rw [if_pos hgt] at hm
        simp at hm
        exact ⟨_, _, _, _, hm⟩
      · rw [if_neg hgt] at hm
        simp at hm

/-- Claim C9: whenever PowerDynamicsAnalyzer emits a critical moment whose
    phrase first occurs (as a whole word) at character offset p, the
    moment's timestamp is round((p / transcript_length) · duration, 1). -/
theorem C9_moment_timestamp (t : List Char) (d : ℚ) (a : Option (List Nat))
    (r : PowerResult) (m : CriticalMoment) (p : Nat) (ps : List Nat)
    (hr : power_analyze t d a = Except.ok r) (hm : m ∈ r.critical_moments)
    (hp : find_word_positions (lowerStr t) m.phrase = p :: ps) :
    m.timestamp = round1 ((p : ℚ) / (t.length : ℚ) * d) := by
  by_cases hb : isBlank t = true
  · rw [power_analyze_blank t d a hb, Except.ok.injEq] at hr
    rw [← hr] at hm
    simp at hm
  · have hb2 : isBlank t = false := by simpa using hb
    by_cases hd : d ≤ 0
    · rw [(power_analyze_eq_error_iff t d a .valueError).mpr ⟨hb2, hd, rfl⟩]
        at hr
      exact absurd hr (by simp)
    · rw [power_analyze_nonblank t d a hb2 hd, Except.ok.injEq] at hr
      rw [← hr] at hm
      obtain ⟨k, sev, phr, occ, hme⟩ := mem_identify hm
      have hph : m.phrase = phr := by rw [hme]; rfl
      rw [hph] at hp
      rw [hme]
      simp only [momentFor, hp]
      have hlen : (lowerStr t).length = t.length := by
        rw [lowerStr, List.length_map]
      have hne : ¬ (lowerStr t).length = 0 := by
        rw [hlen]
        intro h0
        rw [List.length_eq_zero.mp h0] at hb2
        simp [isBlank] at hb2
      rw [calculate_timestamp, if_neg hne, hlen]

/-- Claim C9 witness: on the 100-character transcript whose first
    word-boundary "um" sits at offset 50, with duration 40, the emitted
    moment is stamped round((50/100)·40, 1) = 20.0. -/
theorem C9_witness :
    power_analyze c9Transcript 40 none = Except.ok c9Result
    ∧ c9Moment ∈ c9Result.critical_moments
    ∧ find_word_positions (lowerStr c9Transcript) c9Moment.phrase
        = [50, 53, 56, 59]
    ∧ c9Moment.timestamp = round1 ((50 : ℚ) / (c9Transcript.length : ℚ) * 40) :=
  ⟨power_eval_c9, List.mem_singleton.mpr rfl, posUm_c9,
    C9_moment_timestamp c9Transcript 40 none c9Result c9Moment 50 [53, 56, 59]
      power_eval_c9 (List.mem_singleton.mpr rfl) posUm_c9⟩

/-- Claim C10: "kind of" and "sort of" belong to both dictionaries, every
    occurrence is counted in both the filler and the hedging totals, and a
    single occurrence can trigger both a filler-tier and a hedging-tier
    deduction: the transcript "kind of" at duration 600 scores
    100 - 5 - 3 = 92. -/
theorem C10_shared_phrases (t : List Char)
    (h : 0 < countOcc "kind of".data t) :
    ("kind of".data, 1) ∈ FILLER_WORDS
    ∧ ("kind of".data, 1) ∈ HEDGING_PHRASES
    ∧ ("sort of".data, 1) ∈ FILLER_WORDS
    ∧ ("sort of".data, 1) ∈ HEDGING_PHRASES
    ∧ ("kind of".data, countOcc "kind of".data t)
        ∈ (detect_filler_words t).words
    ∧ ("kind of".data, countOcc "kind of".data t)
        ∈ (detect_hedging_language t).words
    ∧ (power_analyze "kind of".data 600 none).map
        (fun r => (r.score, r.filler_words.count, r.hedging.count))
        = Except.ok (92, 1, 1) := by
  refine ⟨by decide, by decide, by decide, by decide, ?_, ?_, ?_⟩
  · simp only [detect_filler_words]
    refine List.mem_filterMap.mpr ⟨("kind of".data, 1), by decide, ?_⟩
    simp [h]
  · simp only [detect_hedging_language]
    refine List.mem_filterMap.mpr ⟨("kind of".data, 1), by decide, ?_⟩
    simp [h]
  · rw [power_eval_kind]
    rfl

/-- Claim C10 witness: the transcript "i kind of agree" contains one
    occurrence of "kind of", recorded in both detection maps. -/
theorem C10_witness :
    0 < countOcc "kind of".data "i kind of agree".data
    ∧ ("kind of".data, countOcc "kind of".data "i kind of agree".data)
        ∈ (detect_filler_words "i kind of agree".data).words
    ∧ (power_analyze "kind of".data 600 none).map
        (fun r => (r.score, r.filler_words.count, r.hedging.count))
        = Except.ok (92, 1, 1) :=
  ⟨by decide,
   (C10_shared_phrases "i kind of agree".data (by decide)).2.2.2.2.1,
   (C10_shared_phrases "i kind of agree".data (by decide)).2.2.2.2.2.2⟩

end SpeechAnalyzer
